import Mathlib

/-!
Shallow embedding of the simplyutil-server Go backend (city / landmark /
weather / exchange-rate aggregator) and proofs about its adapters,
handlers and JSON codec.

Modelling conventions:
* Go `float64` values are modelled as `ℚ` (the program never does float
  arithmetic; every float is carried through unchanged from upstream JSON).
* Go `int`/`int64` are modelled as `Int`.
* `time.Time` values (only ever built by `time.Unix(secs, 0)`) are modelled
  by their unix seconds as `Int`.
* A Go `map[string]T` decoded from JSON is modelled as
  `Option (List (String × T))`: `none` is the nil map (absent/`null` field),
  `some l` a non-nil map whose iteration order is the list order.
* An outbound HTTP call together with the JSON decoding of its body is
  modelled by the oracle type `HttpOutcome α`: either a transport error, or
  a response with a status code, a raw body string, and the result of
  decoding the body into `α`.
* Out-of-range slice indexing (a Go panic) is modelled by `Option`:
  a function that can panic returns `none` exactly on the panicking inputs.
-/

/-- Canonical `City` entity (src/servermodels.go). -/
structure City where
  ID : Int
  Name : String
  ThreeLetterCode : String
  Currency : String
  Country : String
deriving DecidableEq, Repr

/-- Canonical `Landmark` entity (src/servermodels.go). -/
structure Landmark where
  Name : String
  Address : String
  Latitude : ℚ
  Longitude : ℚ
  Rating : ℚ
deriving DecidableEq, Repr

/-- One hourly forecast entry (src/servermodels.go `HourlyForecast`). -/
structure HourlyForecast where
  Time : String
  Temperature : ℚ
  WindSpeed : ℚ
  RelativeHumidity : Int
deriving DecidableEq, Repr

/-- Canonical `WeatherData` entity (src/servermodels.go). -/
structure WeatherData where
  Latitude : ℚ
  Longitude : ℚ
  Hourly : List HourlyForecast
deriving DecidableEq, Repr

/-- Canonical `RatesData` entity (src/servermodels.go). The Go
`map[string]float64` of rates is modelled as an association list; the
`time.Time` timestamp as its unix seconds. -/
structure RatesData where
  BaseCurrency : String
  Rates : List (String × ℚ)
  Timestamp : Int
deriving DecidableEq, Repr

/-- Foursquare v2 venue location (src/servermodels.go `FoursquareV2Response`). -/
structure FsLocation where
  Lat : ℚ
  Lng : ℚ
  Address : String
  FormattedAddress : List String
deriving DecidableEq, Repr

/-- Foursquare v2 venue. -/
structure FsVenue where
  Name : String
  Rating : ℚ
  Location : FsLocation
deriving DecidableEq, Repr

/-- Foursquare v2 group item (wraps a venue). -/
structure FsItem where
  Venue : FsVenue
deriving DecidableEq, Repr

/-- Foursquare v2 result group. -/
structure FsGroup where
  Items : List FsItem
deriving DecidableEq, Repr

/-- Body of a Foursquare v2 response. -/
structure FsResponseBody where
  Groups : List FsGroup
deriving DecidableEq, Repr

/-- Decoded Foursquare v2 response (src/servermodels.go `FoursquareV2Response`). -/
structure FoursquareV2Response where
  Response : FsResponseBody
deriving DecidableEq, Repr

/-- The four parallel hourly arrays of an Open-Meteo response. -/
structure OpenMeteoHourly where
  Time : List String
  Temperature : List ℚ
  WindSpeed : List ℚ
  RelativeHumidity : List Int
deriving DecidableEq, Repr

/-- Decoded Open-Meteo response (src/servermodels.go `OpenMeteoResponse`). -/
structure OpenMeteoResponse where
  Latitude : ℚ
  Longitude : ℚ
  Hourly : OpenMeteoHourly
deriving DecidableEq, Repr

/-- Decoded exchange-rate-API response (src/servermodels.go
`ExchangeRateResponse`). `ConversionRates` is the decoded
`map[string]float64` (always non-nil once decoded from an object; modelled
as the entry list). -/
structure ExchangeRateResponse where
  Result : String
  BaseCode : String
  ConversionRates : List (String × ℚ)
  TimeLastUpdateUnix : Int
deriving DecidableEq, Repr

/-- Common/official country name pair (src/servermodels.go `RestCountry`). -/
structure RestCountryName where
  Common : String
  Official : String
deriving DecidableEq, Repr

/-- One currency entry of a REST-Countries record. -/
structure RestCurrency where
  CurName : String
  Symbol : String
deriving DecidableEq, Repr

/-- Decoded REST-Countries record (src/servermodels.go `RestCountry`).
`Currencies = none` models the nil Go map (field absent or `null` in the
JSON); `some l` models a non-nil map with entries `l` in iteration order. -/
structure RestCountry where
  Name : RestCountryName
  CCA3 : String
  Capital : List String
  Currencies : Option (List (String × RestCurrency))
deriving DecidableEq, Repr

/-- Decoded Nominatim geocoding result (src/servermodels.go
`NominatimResult`); lat/lon are parsed from strings by the Go codec. -/
structure NominatimResult where
  Lat : ℚ
  Lon : ℚ
deriving DecidableEq, Repr

/-- Oracle for one outbound HTTP call plus the JSON decoding of its body:
either the transport fails, or a response arrives with a status code, raw
body text, and the outcome of decoding that body into `α`. -/
inductive HttpOutcome (α : Type) where
  | transportError (msg : String)
  | response (status : Nat) (rawBody : String) (decoded : Except String α)
deriving Repr

/-- Split a character list at the first `'+'`: `some (before, after)` when a
`'+'` occurs, `none` otherwise. Models the byte-index split
`apiKey[:i], apiKey[i+1:]` of the Go loop (the `'+'` byte is a rune
boundary, so the byte split is a character split). -/
def splitFirstPlus : List Char → Option (List Char × List Char)
  | [] => none
  | c :: cs =>
    if c = '+' then some ([], cs)
    else
      match splitFirstPlus cs with
      | some (a, b) => some (c :: a, b)
      | none => none

/-- `parseV2APIKey` (src/unnamed/part_000, lines 246-255): split the key at
the first `'+'`; if none is present return the whole key as both parts. -/
def parseV2APIKey (apiKey : String) : String × String :=
  match splitFirstPlus apiKey.data with
  | some (a, b) => (String.mk a, String.mk b)
  | none => (apiKey, apiKey)

/-- The free-text geocoding query: `"city, country"` when a country is
supplied, the city name alone otherwise (src/unnamed/part_000, lines 210-213). -/
def geocodeQuery (cityName country : String) : String :=
  if country ≠ "" then cityName ++ ", " ++ country else cityName

/-- `geocodeCity` (src/unnamed/part_000, lines 208-243): issue the request,
propagate a transport error, decode the body (the HTTP status code is never
inspected), fail with `location not found` on zero results, otherwise return
the first result's coordinates. -/
def geocodeCity (cityName country : String)
    (out : HttpOutcome (List NominatimResult)) : Except String (ℚ × ℚ) :=
  match out with
  | .transportError msg => .error msg
  | .response _status _rawBody decoded =>
    match decoded with
    | .error e => .error e
    | .ok results =>
      match results with
      | [] => .error ("location not found: " ++ geocodeQuery cityName country)
      | r :: _ => .ok (r.Lat, r.Lon)

/-- The index-aligned zip of the four parallel hourly arrays
(src/unnamed/part_000, lines 113-121): the Go loop ranges over the `Time`
array and indexes the other three at the same position; an out-of-range
access is a panic, modelled as `none`. -/
def zipHourly : List String → List ℚ → List ℚ → List Int →
    Option (List HourlyForecast)
  | [], _, _, _ => some []
  | t :: ts, tp :: tps, w :: ws, h :: hs =>
    (zipHourly ts tps ws hs).map (fun rest => ⟨t, tp, w, h⟩ :: rest)
  | _ :: _, _, _, _ => none

/-- `fetchWeatherFromOpenMeteo` (src/unnamed/part_000, lines 79-128) with the
geocoding outcome and the HTTP call as oracles. The outer `Option` models the
Go panic of the zip loop (`none` = panic, no value returned at all). -/
def fetchWeatherFromOpenMeteo (geo : Except String (ℚ × ℚ))
    (out : HttpOutcome OpenMeteoResponse) :
    Option (Except String WeatherData) :=
  match geo with
  | .error e => some (.error ("geocoding failed: " ++ e))
  | .ok (lat, lon) =>
    match out with
    | .transportError msg => some (.error msg)
    | .response status rawBody decoded =>
      if status ≠ 200 then
        some (.error ("open-meteo API error: " ++ toString status ++ " - " ++ rawBody))
      else
        match decoded with
        | .error e => some (.error e)
        | .ok w =>
          match zipHourly w.Hourly.Time w.Hourly.Temperature
              w.Hourly.WindSpeed w.Hourly.RelativeHumidity with
          | none => none
          | some hourly => some (.ok ⟨lat, lon, hourly⟩)

/-- `fetchRatesFromExchangeAPI` (src/unnamed/part_000, lines 131-156):
transport error and non-200 status are errors; otherwise the decoded body is
repackaged with `BaseCurrency := base_code`, the conversion-rate map, and
`Timestamp := time.Unix(time_last_update_unix, 0)`. The `result` field of the
body is never read. -/
def fetchRatesFromExchangeAPI (baseCurrency : String)
    (out : HttpOutcome ExchangeRateResponse) : Except String RatesData :=
  match out with
  | .transportError msg => .error msg
  | .response status rawBody decoded =>
    if status ≠ 200 then
      .error ("exchange-rate API error: " ++ toString status ++ " - " ++ rawBody)
    else
      match decoded with
      | .error e => .error e
      | .ok r => .ok ⟨r.BaseCode, r.ConversionRates, r.TimeLastUpdateUnix⟩

/-- Conversion of one Foursquare item into a canonical `Landmark`
(src/unnamed/part_000, lines 62-70). -/
def toLandmark (item : FsItem) : Landmark :=
  ⟨item.Venue.Name, item.Venue.Location.Address, item.Venue.Location.Lat,
    item.Venue.Location.Lng, item.Venue.Rating⟩

/-- `fetchLandmarksFromFoursquare` (src/unnamed/part_000, lines 14-76) with
the geocoding outcome, the environment's API key (`""` = unset), and the HTTP
call as oracles. On success only the FIRST result group's items are
converted; zero groups yield the empty list. -/
def fetchLandmarksFromFoursquare (geo : Except String (ℚ × ℚ))
    (apiKey : String) (out : HttpOutcome FoursquareV2Response) :
    Except String (List Landmark) :=
  match geo with
  | .error e => .error ("geocoding failed: " ++ e)
  | .ok _ =>
    if apiKey = "" then .error "FOURSQUARE_API_KEY not set"
    else
      let _cred := parseV2APIKey apiKey
      match out with
      | .transportError msg => .error msg
      | .response status rawBody decoded =>
        if status ≠ 200 then
          .error ("foursquare API error: " ++ toString status ++ " - " ++ rawBody)
        else
          match decoded with
          | .error e => .error e
          | .ok fs =>
            .ok (match fs.Response.Groups with
                 | [] => []
                 | g :: _ => g.Items.map toLandmark)

/-- First key of a country's currency map in iteration order, `""` for the
empty map (src/unnamed/part_000, lines 186-191: `var currencyCode string`
keeps its zero value when the `for ... range` body never runs). -/
def firstCurrencyCode (curs : List (String × RestCurrency)) : String :=
  match curs with
  | [] => ""
  | (code, _) :: _ => code

/-- The conversion loop of `fetchCitiesFromRestCountries`
(src/unnamed/part_000, lines 179-202), with the running `id` counter: skip a
country whose capital list is empty or whose currency map is nil; otherwise
emit one `City` and increment the counter. -/
def citiesLoop : List RestCountry → Int → List City
  | [], _ => []
  | c :: cs, id =>
    if c.Capital = [] ∨ c.Currencies = none then
      citiesLoop cs id
    else
      { ID := id
        Name := c.Capital.headD ""
        ThreeLetterCode := c.CCA3
        Currency := firstCurrencyCode (c.Currencies.getD [])
        Country := c.Name.Common } :: citiesLoop cs (id + 1)

/-- `fetchCitiesFromRestCountries` (src/unnamed/part_000, lines 159-205) with
the HTTP call as oracle. -/
def fetchCitiesFromRestCountries (out : HttpOutcome (List RestCountry)) :
    Except String (List City) :=
  match out with
  | .transportError msg => .error msg
  | .response status rawBody decoded =>
    if status ≠ 200 then
      .error ("rest-countries API error: " ++ toString status ++ " - " ++ rawBody)
    else
      match decoded with
      | .error e => .error e
      | .ok countries => .ok (citiesLoop countries 1)

/-- A value stored in a `gin.H` response map before serialization. -/
inductive GinVal where
  | str (s : String)
  | int (n : Int)
  | landmarksVal (ls : List Landmark)
  | weatherVal (w : WeatherData)
  | ratesVal (r : RatesData)
  | citiesVal (cs : List City)
deriving DecidableEq, Repr

/-- An HTTP response produced by a handler: status code plus the `gin.H`
body, modelled as an association list in insertion order. -/
structure HandlerResponse where
  status : Nat
  body : List (String × GinVal)
deriving DecidableEq, Repr

/-- `GetCityData` (src/unnamed/part_003, lines 28-83), with the outcomes of
the three concurrent fetches as parameters (the three goroutines always run
to completion and each result is collected from its own channel; the merge
below is exactly the sequential merge of the collected results). -/
def GetCityData (cityName country : String)
    (landmarksRes : Except String (List Landmark))
    (weatherRes : Except String WeatherData)
    (ratesRes : Except String RatesData) : HandlerResponse :=
  let base := [("city", GinVal.str cityName), ("country", GinVal.str country)]
  let withLandmarks := base ++
    [match landmarksRes with
     | .ok ls => ("landmarks", GinVal.landmarksVal ls)
     | .error e => ("landmarks_error", GinVal.str e)]
  let withWeather := withLandmarks ++
    [match weatherRes with
     | .ok w => ("weather", GinVal.weatherVal w)
     | .error e => ("weather_error", GinVal.str e)]
  let withRates := withWeather ++
    [match ratesRes with
     | .ok r => ("rates", GinVal.ratesVal r)
     | .error e => ("rates_error", GinVal.str e)]
  ⟨200, withRates⟩

/-- `GetLandmarks` (src/unnamed/part_003, lines 86-108). `cityName` is
`c.Query("city")`, which is `""` both for a missing and for an empty `city`
query parameter; the fetch outcome is a parameter, consulted only past the
validation gate. -/
def GetLandmarks (cityName country : String)
    (fetchRes : Except String (List Landmark)) : HandlerResponse :=
  if cityName = "" then
    ⟨400, [("error", GinVal.str "city parameter is required")]⟩
  else
    match fetchRes with
    | .error e =>
      ⟨500, [("error", GinVal.str "Failed to fetch landmarks"),
             ("message", GinVal.str e)]⟩
    | .ok landmarks =>
      ⟨200, [("landmarks", GinVal.landmarksVal landmarks),
             ("count", GinVal.int landmarks.length)]⟩

/-- `GetWeather` (src/unnamed/part_003, lines 111-131); same conventions as
`GetLandmarks`. -/
def GetWeather (cityName : String)
    (fetchRes : Except String WeatherData) : HandlerResponse :=
  if cityName = "" then
    ⟨400, [("error", GinVal.str "city parameter is required")]⟩
  else
    match fetchRes with
    | .error e =>
      ⟨500, [("error", GinVal.str "Failed to fetch weather"),
             ("message", GinVal.str e)]⟩
    | .ok weather =>
      ⟨200, [("weather", GinVal.weatherVal weather)]⟩

/-- JSON values of the wire format, at the level of the JSON object model:
numbers carry the exact numeric value (the program copies every number
through unchanged, and Go's codec round-trips numeric values), and the
RFC3339 wire form of a timestamp is abstracted by its unix seconds. -/
inductive Json where
  | null
  | bool (b : Bool)
  | str (s : String)
  | num (q : ℚ)
  | arr (elems : List Json)
  | obj (fields : List (String × Json))

/-- Field lookup in a JSON object. -/
def Json.getField (j : Json) (key : String) : Option Json :=
  match j with
  | .obj fields => fields.lookup key
  | _ => none

/-- Read a JSON string. -/
def Json.asString : Json → Option String
  | .str s => some s
  | _ => none

/-- Read a JSON number. -/
def Json.asNum : Json → Option ℚ
  | .num q => some q
  | _ => none

/-- Read a JSON number into a Go `int` (Go's decoder rejects a fractional
number for an integer field). -/
def Json.asInt : Json → Option Int
  | .num q => if q.den = 1 then some q.num else none
  | _ => none

/-- Read a JSON array. -/
def Json.asArr : Json → Option (List Json)
  | .arr elems => some elems
  | _ => none

/-- Read a JSON object's field list. -/
def Json.asObj : Json → Option (List (String × Json))
  | .obj fields => some fields
  | _ => none

/-- Encode a `City` with the struct tags of src/servermodels.go. -/
def encodeCity (c : City) : Json :=
  .obj [("id", .num c.ID), ("name", .str c.Name),
        ("threeLetterCode", .str c.ThreeLetterCode),
        ("currency", .str c.Currency), ("country", .str c.Country)]

/-- Decode a `City` from its wire JSON. -/
def decodeCity (j : Json) : Option City := do
  let id ← (← j.getField "id").asInt
  let name ← (← j.getField "name").asString
  let code ← (← j.getField "threeLetterCode").asString
  let currency ← (← j.getField "currency").asString
  let country ← (← j.getField "country").asString
  pure ⟨id, name, code, currency, country⟩

/-- Encode a `Landmark` with the struct tags of src/servermodels.go. -/
def encodeLandmark (l : Landmark) : Json :=
  .obj [("name", .str l.Name), ("address", .str l.Address),
        ("latitude", .num l.Latitude), ("longitude", .num l.Longitude),
        ("rating", .num l.Rating)]

/-- Decode a `Landmark` from its wire JSON. -/
def decodeLandmark (j : Json) : Option Landmark := do
  let name ← (← j.getField "name").asString
  let address ← (← j.getField "address").asString
  let lat ← (← j.getField "latitude").asNum
  let lon ← (← j.getField "longitude").asNum
  let rating ← (← j.getField "rating").asNum
  pure ⟨name, address, lat, lon, rating⟩

/-- Encode an `HourlyForecast` with the struct tags of src/servermodels.go. -/
def encodeHourlyForecast (h : HourlyForecast) : Json :=
  .obj [("time", .str h.Time), ("temperature", .num h.Temperature),
        ("windSpeed", .num h.WindSpeed),
        ("relativeHumidity", .num h.RelativeHumidity)]

/-- Decode an `HourlyForecast` from its wire JSON. -/
def decodeHourlyForecast (j : Json) : Option HourlyForecast := do
  let time ← (← j.getField "time").asString
  let temp ← (← j.getField "temperature").asNum
  let wind ← (← j.getField "windSpeed").asNum
  let hum ← (← j.getField "relativeHumidity").asInt
  pure ⟨time, temp, wind, hum⟩

/-- Decode a JSON array elementwise; any failing element fails the list. -/
def decodeListWith (dec : Json → Option α) : List Json → Option (List α)
  | [] => some []
  | j :: js => do
    let x ← dec j
    let xs ← decodeListWith dec js
    pure (x :: xs)

/-- Encode a `WeatherData` with the struct tags of src/servermodels.go. -/
def encodeWeatherData (w : WeatherData) : Json :=
  .obj [("latitude", .num w.Latitude), ("longitude", .num w.Longitude),
        ("hourly", .arr (w.Hourly.map encodeHourlyForecast))]

/-- Decode a `WeatherData` from its wire JSON. -/
def decodeWeatherData (j : Json) : Option WeatherData := do
  let lat ← (← j.getField "latitude").asNum
  let lon ← (← j.getField "longitude").asNum
  let hourlyJson ← (← j.getField "hourly").asArr
  let hourly ← decodeListWith decodeHourlyForecast hourlyJson
  pure ⟨lat, lon, hourly⟩

/-- Decode the entries of a `map[string]float64` JSON object. -/
def decodeRatesEntries : List (String × Json) → Option (List (String × ℚ))
  | [] => some []
  | (k, j) :: rest => do
    let q ← j.asNum
    let tail ← decodeRatesEntries rest
    pure ((k, q) :: tail)

/-- Encode a `RatesData` with the struct tags of src/servermodels.go; the
rates map becomes a JSON object, the timestamp a number (unix seconds,
standing for the injective wire form of the time value). -/
def encodeRatesData (r : RatesData) : Json :=
  .obj [("baseCurrency", .str r.BaseCurrency),
        ("rates", .obj (r.Rates.map (fun p => (p.1, Json.num p.2)))),
        ("timestamp", .num r.Timestamp)]

/-- Decode a `RatesData` from its wire JSON. -/
def decodeRatesData (j : Json) : Option RatesData := do
  let base ← (← j.getField "baseCurrency").asString
  let ratesObj ← (← j.getField "rates").asObj
  let rates ← decodeRatesEntries ratesObj
  let ts ← (← j.getField "timestamp").asInt
  pure ⟨base, rates, ts⟩

/-- The single `City` emitted for a surviving country, given the running
`id` counter (the record literal of src/unnamed/part_000, lines 193-199). -/
def cityOfCountry (id : Int) (c : RestCountry) : City :=
  { ID := id
    Name := c.Capital.headD ""
    ThreeLetterCode := c.CCA3
    Currency := firstCurrencyCode (c.Currencies.getD [])
    Country := c.Name.Common }

/-- Emit one `City` per country with consecutive ids starting at `id`. -/
def enumCities (id : Int) : List RestCountry → List City
  | [] => []
  | c :: cs => cityOfCountry id c :: enumCities (id + 1) cs

/-- A country survives the filter when its capital list is non-empty and its
currencies map is non-nil (the negation of the skip condition of
src/unnamed/part_000, line 182). -/
def keepCountry (c : RestCountry) : Bool :=
  !c.Capital.isEmpty && !c.Currencies.isNone

/-- Total, truncating 4-way zip: the value the hourly loop produces whenever
it does not panic. -/
def zip4 : List String → List ℚ → List ℚ → List Int → List HourlyForecast
  | t :: ts, tp :: tps, w :: ws, h :: hs => ⟨t, tp, w, h⟩ :: zip4 ts tps ws hs
  | _, _, _, _ => []

/-- A decoded REST-Countries record with a capital entry that is the empty
string and a non-nil but empty currencies map (`"currencies": {}` in the
upstream JSON). -/
def emptyCurrenciesCountry : RestCountry :=
  ⟨⟨"Xland", "Republic of Xland"⟩, "XLD", [""], some []⟩

/-- A Foursquare response with two result groups: the first empty, the
second holding one item. -/
def fsTwoGroups : FoursquareV2Response :=
  ⟨⟨[⟨[]⟩, ⟨[⟨⟨"Tower", 9, ⟨(515 : ℚ) / 10, -(1 : ℚ) / 10, "1 Road", []⟩⟩⟩]⟩]⟩⟩

/-- A decoded REST-Countries record with a capital and one currency. -/
def franceCountry : RestCountry :=
  ⟨⟨"France", "French Republic"⟩, "FRA", ["Paris"], some [("EUR", ⟨"Euro", "€"⟩)]⟩

/-- An Open-Meteo response whose four hourly arrays all have length 1. -/
def omRespEqual : OpenMeteoResponse :=
  ⟨51, 0, ⟨["2024-01-01T00:00"], [5], [3], [80]⟩⟩

/-- An Open-Meteo response whose time array is strictly the shortest. -/
def omRespSurplus : OpenMeteoResponse :=
  ⟨51, 0, ⟨["2024-01-01T00:00"], [5, 6], [3, 4], [80, 90, 100]⟩⟩

/-- An Open-Meteo response whose temperature array is shorter than the time
array. -/
def omRespShortTemp : OpenMeteoResponse :=
  ⟨51, 0, ⟨["2024-01-01T00:00", "2024-01-01T01:00"], [5], [3, 4], [80, 90]⟩⟩

theorem splitFirstPlus_eq_none (l : List Char) (h : '+' ∉ l) :
    splitFirstPlus l = none := by
  induction l with
  | nil => rfl
  | cons c cs ih =>
    simp only [List.mem_cons, not_or] at h
    simp only [splitFirstPlus, if_neg (Ne.symm h.1), ih h.2]

theorem splitFirstPlus_eq_some (a b : List Char) (h : '+' ∉ a) :
    splitFirstPlus (a ++ '+' :: b) = some (a, b) := by
  induction a with
  | nil => rfl
  | cons c cs ih =>
    simp only [List.mem_cons, not_or] at h
    show splitFirstPlus (c :: (cs ++ '+' :: b)) = _
    rw [splitFirstPlus, if_neg (Ne.symm h.1), ih h.2]

/-- C5: `parseV2APIKey` splits its input on the first `'+'` only; with no
`'+'` both components equal the input. The four concrete examples of the
spec, and the two general laws. -/
theorem parseV2APIKey_spec :
    parseV2APIKey "CLIENT_ID+CLIENT_SECRET" = ("CLIENT_ID", "CLIENT_SECRET") ∧
    parseV2APIKey "SINGLE_KEY" = ("SINGLE_KEY", "SINGLE_KEY") ∧
    parseV2APIKey "ID+SECRET+EXTRA" = ("ID", "SECRET+EXTRA") ∧
    parseV2APIKey "" = ("", "") ∧
    (∀ s : String, '+' ∉ s.data → parseV2APIKey s = (s, s)) ∧
    (∀ a b : List Char, '+' ∉ a →
      parseV2APIKey (String.mk (a ++ '+' :: b)) = (String.mk a, String.mk b)) := by
  refine ⟨by decide, by decide, by decide, by decide, ?_, ?_⟩
  · intro s h
    simp only [parseV2APIKey, splitFirstPlus_eq_none s.data h]
  · intro a b h
    simp only [parseV2APIKey, splitFirstPlus_eq_some a b h]

/-- Concrete instantiation of the general laws of `parseV2APIKey_spec`. -/
theorem parseV2APIKey_spec_witness :
    parseV2APIKey "ABC" = ("ABC", "ABC") ∧ parseV2APIKey "x+y" = ("x", "y") := by
  refine ⟨parseV2APIKey_spec.2.2.2.2.1 "ABC" (by decide), ?_⟩
  have h := parseV2APIKey_spec.2.2.2.2.2 ['x'] ['y'] (by decide)
  exact h

/-- C1: `GetCityData` always answers HTTP 200, and for each of the three
fetches the body carries the payload field exactly when that fetch
succeeded and the sibling `_error` field exactly when it failed — never
both, never neither. -/
theorem getCityData_spec :
    ∀ (cityName country : String)
      (lr : Except String (List Landmark)) (wr : Except String WeatherData)
      (rr : Except String RatesData),
    (GetCityData cityName country lr wr rr).status = 200 ∧
    (∀ ls, lr = .ok ls →
      (GetCityData cityName country lr wr rr).body.lookup "landmarks" =
        some (.landmarksVal ls) ∧
      (GetCityData cityName country lr wr rr).body.lookup "landmarks_error" = none) ∧
    (∀ e, lr = .error e →
      (GetCityData cityName country lr wr rr).body.lookup "landmarks" = none ∧
      (GetCityData cityName country lr wr rr).body.lookup "landmarks_error" =
        some (.str e)) ∧
    (∀ w, wr = .ok w →
      (GetCityData cityName country lr wr rr).body.lookup "weather" =
        some (.weatherVal w) ∧
      (GetCityData cityName country lr wr rr).body.lookup "weather_error" = none) ∧
    (∀ e, wr = .error e →
      (GetCityData cityName country lr wr rr).body.lookup "weather" = none ∧
      (GetCityData cityName country lr wr rr).body.lookup "weather_error" =
        some (.str e)) ∧
    (∀ r, rr = .ok r →
      (GetCityData cityName country lr wr rr).body.lookup "rates" =
        some (.ratesVal r) ∧
      (GetCityData cityName country lr wr rr).body.lookup "rates_error" = none) ∧
    (∀ e, rr = .error e →
      (GetCityData cityName country lr wr rr).body.lookup "rates" = none ∧
      (GetCityData cityName country lr wr rr).body.lookup "rates_error" =
        some (.str e)) := by
  intro cityName country lr wr rr
  cases lr <;> cases wr <;> cases rr <;>
    refine ⟨rfl, ?_, ?_, ?_, ?_, ?_, ?_⟩ <;> intro x hx <;> cases hx <;>
    simp [GetCityData, List.lookup]

/-- Concrete instantiation of `getCityData_spec` on a partial failure
(landmarks and weather succeed, rates fails). -/
theorem getCityData_spec_witness :
    (GetCityData "London" "England" (.ok [])
      (.ok ⟨1, 2, []⟩) (.error "boom")).body.lookup "rates" = none ∧
    (GetCityData "London" "England" (.ok [])
      (.ok ⟨1, 2, []⟩) (.error "boom")).body.lookup "rates_error" =
      some (.str "boom") :=
  (getCityData_spec "London" "England" (.ok []) (.ok ⟨1, 2, []⟩)
    (.error "boom")).2.2.2.2.2.2 "boom" rfl

/-- C7: with an empty (or absent, which gin reports as empty) `city` query
parameter, `GetLandmarks` and `GetWeather` answer exactly HTTP 400 with body
`{"error": "city parameter is required"}`, independently of any fetch
outcome — i.e. no upstream fetch influences the response. -/
theorem missingCityParam_400 :
    ∀ (country : String) (fl fl' : Except String (List Landmark))
      (fw fw' : Except String WeatherData),
    GetLandmarks "" country fl =
      ⟨400, [("error", GinVal.str "city parameter is required")]⟩ ∧
    GetWeather "" fw =
      ⟨400, [("error", GinVal.str "city parameter is required")]⟩ ∧
    GetLandmarks "" country fl = GetLandmarks "" country fl' ∧
    GetWeather "" fw = GetWeather "" fw' := by
  intro country fl fl' fw fw'
  exact ⟨rfl, rfl, rfl, rfl⟩

/-- C10: on an HTTP 200 rates response whose body decodes, the fetch
succeeds whatever the body's `result` field holds (it is never consulted),
and the returned `BaseCurrency` is the upstream `base_code`, not the
requested base currency. -/
theorem fetchRates_spec :
    ∀ (baseCurrency rawBody : String) (r : ExchangeRateResponse),
    fetchRatesFromExchangeAPI baseCurrency (.response 200 rawBody (.ok r)) =
      .ok ⟨r.BaseCode, r.ConversionRates, r.TimeLastUpdateUnix⟩ := by
  intro baseCurrency rawBody r
  rfl

/-- C2 counterexample: the upstream status code is never consulted, so a
non-success (500) geocoding response whose body still decodes to a
non-empty result list returns a coordinate — contradicting that a
non-success status always fails with an upstream error. -/
theorem geocodeCity_status_counterexample :
    geocodeCity "Paris" ""
      (.response 500 "Internal Server Error"
        (.ok [⟨(4885 : ℚ) / 100, (235 : ℚ) / 100⟩])) =
      .ok ((4885 : ℚ) / 100, (235 : ℚ) / 100) := rfl

/-- C2 (amended): `geocodeCity` fails with the transport error when the
transport fails, with the decode error when the body does not decode, with
`location not found` exactly when the body decodes to zero matches, and
returns the first match's coordinates otherwise; the HTTP status code is
never consulted. -/
theorem geocodeCity_spec :
    ∀ (cityName country : String) (out : HttpOutcome (List NominatimResult)),
    (∀ msg, out = .transportError msg →
      geocodeCity cityName country out = .error msg) ∧
    (∀ s b e, out = .response s b (.error e) →
      geocodeCity cityName country out = .error e) ∧
    (∀ s b, out = .response s b (.ok []) →
      geocodeCity cityName country out =
        .error ("location not found: " ++ geocodeQuery cityName country)) ∧
    (∀ s b r rs, out = .response s b (.ok (r :: rs)) →
      geocodeCity cityName country out = .ok (r.Lat, r.Lon)) ∧
    (∀ s s' b d, geocodeCity cityName country (.response s b d) =
      geocodeCity cityName country (.response s' b d)) := by
  intro cityName country out
  refine ⟨?_, ?_, ?_, ?_, ?_⟩
  · intro msg h; subst h; rfl
  · intro s b e h; subst h; rfl
  · intro s b h; subst h; rfl
  · intro s b r rs h; subst h; rfl
  · intro s s' b d; cases d <;> rfl

/-- Concrete instantiation of `geocodeCity_spec` on a zero-match response. -/
theorem geocodeCity_spec_witness :
    geocodeCity "Atlantis" "" (.response 200 "[]" (.ok [])) =
      .error ("location not found: " ++ geocodeQuery "Atlantis" "") :=
  (geocodeCity_spec "Atlantis" "" (.response 200 "[]" (.ok []))).2.2.1 200 "[]" rfl

theorem keepCountry_false_iff (c : RestCountry) :
    keepCountry c = false ↔ (c.Capital = [] ∨ c.Currencies = none) := by
  cases hc : c.Capital <;> cases ho : c.Currencies <;>
    simp [keepCountry, hc, ho]

theorem citiesLoop_eq_enum (l : List RestCountry) (id : Int) :
    citiesLoop l id = enumCities id (l.filter keepCountry) := by
  induction l generalizing id with
  | nil => rfl
  | cons c cs ih =>
    simp only [citiesLoop, List.filter_cons]
    by_cases h : c.Capital = [] ∨ c.Currencies = none
    · have hk : keepCountry c = false := (keepCountry_false_iff c).mpr h
      rw [if_pos h, hk]
      simp [ih]
    · have hk : keepCountry c = true := by
        cases hb : keepCountry c with
        | false => exact absurd ((keepCountry_false_iff c).mp hb) h
        | true => rfl
      rw [if_neg h, hk]
      simp [enumCities, cityOfCountry, ih]

/-- C3 counterexample: a country whose currencies map is non-nil but empty
(no currency entries) and whose only capital entry is the empty string is
NOT dropped: it yields a `City` with empty name and empty currency. -/
theorem fetchCities_counterexample :
    fetchCitiesFromRestCountries (.response 200 "" (.ok [emptyCurrenciesCountry])) =
      .ok [{ ID := 1, Name := "", ThreeLetterCode := "XLD",
             Currency := "", Country := "Xland" }] ∧
    emptyCurrenciesCountry.Currencies = some [] := ⟨rfl, rfl⟩

/-- C3 (amended): the city list drops exactly the countries with an empty
capital list or a nil currencies map; each surviving country yields exactly
one `City`, in order, with consecutive ids from 1, name the first capital
entry, and currency the first key of its currency map (one of the declared
codes whenever the map is non-empty, `""` for a non-nil empty map). -/
theorem fetchCities_spec :
    ∀ (rawBody : String) (countries : List RestCountry),
    fetchCitiesFromRestCountries (.response 200 rawBody (.ok countries)) =
      .ok (enumCities 1 (countries.filter keepCountry)) ∧
    (∀ curs : List (String × RestCurrency), curs ≠ [] →
      firstCurrencyCode curs ∈ curs.map Prod.fst) ∧
    (∀ (id : Int) (cs : List RestCountry),
      (enumCities id cs).length = cs.length) := by
  intro rawBody countries
  refine ⟨?_, ?_, ?_⟩
  · simp [fetchCitiesFromRestCountries, citiesLoop_eq_enum]
  · intro curs h
    cases curs with
    | nil => exact absurd rfl h
    | cons p ps => simp [firstCurrencyCode]
  · intro id cs
    induction cs generalizing id with
    | nil => rfl
    | cons c cs ih => simp [enumCities, ih]

/-- Concrete instantiation of `fetchCities_spec`. -/
theorem fetchCities_spec_witness :
    fetchCitiesFromRestCountries (.response 200 "" (.ok [franceCountry])) =
      .ok [{ ID := 1, Name := "Paris", ThreeLetterCode := "FRA",
             Currency := "EUR", Country := "France" }] ∧
    firstCurrencyCode [("EUR", ⟨"Euro", "€"⟩)] ∈
      ([(("EUR" : String), (⟨"Euro", "€"⟩ : RestCurrency))].map Prod.fst) := by
  constructor
  · have h := (fetchCities_spec "" [franceCountry]).1
    simpa [franceCountry, enumCities, cityOfCountry, firstCurrencyCode] using h
  · exact (fetchCities_spec "" [franceCountry]).2.1 _ (by decide)

theorem zipHourly_eq_zip4 (ts : List String) (tps ws : List ℚ) (hs : List Int)
    (h1 : ts.length ≤ tps.length) (h2 : ts.length ≤ ws.length)
    (h3 : ts.length ≤ hs.length) :
    zipHourly ts tps ws hs = some (zip4 ts tps ws hs) := by
  induction ts generalizing tps ws hs with
  | nil => rfl
  | cons t ts ih =>
    cases tps with
    | nil => simp at h1
    | cons tp tps =>
      cases ws with
      | nil => simp at h2
      | cons w ws =>
        cases hs with
        | nil => simp at h3
        | cons hh hs =>
          simp only [List.length_cons, Nat.succ_le_succ_iff] at h1 h2 h3
          simp [zipHourly, zip4, ih tps ws hs h1 h2 h3]

theorem zip4_length (ts : List String) (tps ws : List ℚ) (hs : List Int)
    (h1 : ts.length ≤ tps.length) (h2 : ts.length ≤ ws.length)
    (h3 : ts.length ≤ hs.length) :
    (zip4 ts tps ws hs).length = ts.length := by
  induction ts generalizing tps ws hs with
  | nil => rfl
  | cons t ts ih =>
    cases tps with
    | nil => simp at h1
    | cons tp tps =>
      cases ws with
      | nil => simp at h2
      | cons w ws =>
        cases hs with
        | nil => simp at h3
        | cons hh hs =>
          simp only [List.length_cons, Nat.succ_le_succ_iff] at h1 h2 h3
          simp [zip4, ih tps ws hs h1 h2 h3]

theorem zip4_getElem (ts : List String) (tps ws : List ℚ) (hs : List Int)
    (i : ℕ) (h1 : ts.length ≤ tps.length) (h2 : ts.length ≤ ws.length)
    (h3 : ts.length ≤ hs.length) (hi : i < ts.length) :
    ∃ t tp w hh, ts[i]? = some t ∧ tps[i]? = some tp ∧ ws[i]? = some w ∧
      hs[i]? = some hh ∧ (zip4 ts tps ws hs)[i]? = some ⟨t, tp, w, hh⟩ := by
  induction ts generalizing tps ws hs i with
  | nil => simp at hi
  | cons t ts ih =>
    cases tps with
    | nil => simp at h1
    | cons tp tps =>
      cases ws with
      | nil => simp at h2
      | cons w ws =>
        cases hs with
        | nil => simp at h3
        | cons hh hs =>
          simp only [List.length_cons, Nat.succ_le_succ_iff] at h1 h2 h3
          cases i with
          | zero =>
            exact ⟨t, tp, w, hh, by simp, by simp, by simp, by simp,
              by simp [zip4]⟩
          | succ n =>
            have hn : n < ts.length := by
              simpa [Nat.succ_lt_succ_iff] using hi
            obtain ⟨a, b, c, d, e1, e2, e3, e4, e5⟩ :=
              ih tps ws hs n h1 h2 h3 hn
            exact ⟨a, b, c, d, by simpa using e1, by simpa using e2,
              by simpa using e3, by simpa using e4, by simpa [zip4] using e5⟩

theorem zipHourly_eq_none (ts : List String) (tps ws : List ℚ) (hs : List Int)
    (h : tps.length < ts.length ∨ ws.length < ts.length ∨
      hs.length < ts.length) :
    zipHourly ts tps ws hs = none := by
  induction ts generalizing tps ws hs with
  | nil => simp at h
  | cons t ts ih =>
    cases tps with
    | nil => rfl
    | cons tp tps =>
      cases ws with
      | nil => rfl
      | cons w ws =>
        cases hs with
        | nil => rfl
        | cons hh hs =>
          have h' : tps.length < ts.length ∨ ws.length < ts.length ∨
              hs.length < ts.length := by
            simpa [Nat.succ_lt_succ_iff] using h
          simp [zipHourly, ih tps ws hs h']

/-- C4: when the four hourly arrays all have length `N`, the weather fetch
succeeds (no panic) and produces exactly `N` hourly entries, entry `i`
holding the `i`-th element of each of the four arrays. -/
theorem fetchWeather_equalLengths :
    ∀ (lat lon : ℚ) (rawBody : String) (resp : OpenMeteoResponse) (N : ℕ),
    resp.Hourly.Time.length = N →
    resp.Hourly.Temperature.length = N →
    resp.Hourly.WindSpeed.length = N →
    resp.Hourly.RelativeHumidity.length = N →
    ∃ w, fetchWeatherFromOpenMeteo (.ok (lat, lon))
        (.response 200 rawBody (.ok resp)) = some (.ok w) ∧
      w.Hourly.length = N ∧
      ∀ i, i < N → ∃ t tp wd hh,
        resp.Hourly.Time[i]? = some t ∧
        resp.Hourly.Temperature[i]? = some tp ∧
        resp.Hourly.WindSpeed[i]? = some wd ∧
        resp.Hourly.RelativeHumidity[i]? = some hh ∧
        w.Hourly[i]? = some ⟨t, tp, wd, hh⟩ := by
  intro lat lon rawBody resp N hT h1 h2 h3
  have l1 : resp.Hourly.Time.length ≤ resp.Hourly.Temperature.length := by omega
  have l2 : resp.Hourly.Time.length ≤ resp.Hourly.WindSpeed.length := by omega
  have l3 : resp.Hourly.Time.length ≤ resp.Hourly.RelativeHumidity.length := by
    omega
  refine ⟨⟨lat, lon, zip4 resp.Hourly.Time resp.Hourly.Temperature
    resp.Hourly.WindSpeed resp.Hourly.RelativeHumidity⟩, ?_, ?_, ?_⟩
  · simp [fetchWeatherFromOpenMeteo,
      zipHourly_eq_zip4 _ _ _ _ l1 l2 l3]
  · rw [show (⟨lat, lon, zip4 resp.Hourly.Time resp.Hourly.Temperature
      resp.Hourly.WindSpeed resp.Hourly.RelativeHumidity⟩ : WeatherData).Hourly =
      zip4 resp.Hourly.Time resp.Hourly.Temperature resp.Hourly.WindSpeed
        resp.Hourly.RelativeHumidity from rfl,
      zip4_length _ _ _ _ l1 l2 l3, hT]
  · intro i hi
    exact zip4_getElem _ _ _ _ i l1 l2 l3 (by omega)

/-- Concrete instantiation of `fetchWeather_equalLengths` at `N = 1`. -/
theorem fetchWeather_equalLengths_witness :
    ∃ w, fetchWeatherFromOpenMeteo (.ok (51, 0))
        (.response 200 "" (.ok omRespEqual)) = some (.ok w) ∧
      w.Hourly.length = 1 ∧
      ∀ i, i < 1 → ∃ t tp wd hh,
        omRespEqual.Hourly.Time[i]? = some t ∧
        omRespEqual.Hourly.Temperature[i]? = some tp ∧
        omRespEqual.Hourly.WindSpeed[i]? = some wd ∧
        omRespEqual.Hourly.RelativeHumidity[i]? = some hh ∧
        w.Hourly[i]? = some ⟨t, tp, wd, hh⟩ :=
  fetchWeather_equalLengths 51 0 "" omRespEqual 1 rfl rfl rfl rfl

/-- C9: the hourly zip only requires that the time array not be strictly
the longest: if the other three arrays are at least as long, no
out-of-range access happens and the hourly sequence has exactly
`length(time)` entries (surplus is discarded); if any of the three is
strictly shorter than the time array, the loop panics. -/
theorem fetchWeather_zip_safety :
    ∀ (lat lon : ℚ) (rawBody : String) (resp : OpenMeteoResponse),
    (resp.Hourly.Time.length ≤ resp.Hourly.Temperature.length →
     resp.Hourly.Time.length ≤ resp.Hourly.WindSpeed.length →
     resp.Hourly.Time.length ≤ resp.Hourly.RelativeHumidity.length →
     fetchWeatherFromOpenMeteo (.ok (lat, lon))
         (.response 200 rawBody (.ok resp)) =
       some (.ok ⟨lat, lon, zip4 resp.Hourly.Time resp.Hourly.Temperature
         resp.Hourly.WindSpeed resp.Hourly.RelativeHumidity⟩) ∧
     (zip4 resp.Hourly.Time resp.Hourly.Temperature resp.Hourly.WindSpeed
       resp.Hourly.RelativeHumidity).length = resp.Hourly.Time.length) ∧
    ((resp.Hourly.Temperature.length < resp.Hourly.Time.length ∨
      resp.Hourly.WindSpeed.length < resp.Hourly.Time.length ∨
      resp.Hourly.RelativeHumidity.length < resp.Hourly.Time.length) →
     fetchWeatherFromOpenMeteo (.ok (lat, lon))
       (.response 200 rawBody (.ok resp)) = none) := by
  intro lat lon rawBody resp
  constructor
  · intro h1 h2 h3
    exact ⟨by simp [fetchWeatherFromOpenMeteo,
        zipHourly_eq_zip4 _ _ _ _ h1 h2 h3],
      zip4_length _ _ _ _ h1 h2 h3⟩
  · intro h
    simp [fetchWeatherFromOpenMeteo, zipHourly_eq_none _ _ _ _ h]

/-- Concrete instantiation of `fetchWeather_zip_safety`: surplus entries in
the non-time arrays are discarded; a short temperature array panics. -/
theorem fetchWeather_zip_safety_witness :
    fetchWeatherFromOpenMeteo (.ok (51, 0))
        (.response 200 "" (.ok omRespSurplus)) =
      some (.ok ⟨51, 0, [⟨"2024-01-01T00:00", 5, 3, 80⟩]⟩) ∧
    fetchWeatherFromOpenMeteo (.ok (51, 0))
      (.response 200 "" (.ok omRespShortTemp)) = none := by
  constructor
  · have h := (fetchWeather_zip_safety 51 0 "" omRespSurplus).1
      (by decide) (by decide) (by decide)
    simpa [omRespSurplus, zip4] using h.1
  · exact (fetchWeather_zip_safety 51 0 "" omRespShortTemp).2 (by decide)

/-- C6 counterexample: a successful response with TWO result groups, whose
single result item sits in the second group, yields zero landmarks — the
item is not transformed, so not every result item of the response becomes a
`Landmark`. -/
theorem fetchLandmarks_counterexample :
    fetchLandmarksFromFoursquare (.ok (0, 0)) "k"
        (.response 200 "" (.ok fsTwoGroups)) = .ok [] ∧
    (fsTwoGroups.Response.Groups.map (fun g => g.Items.length)).sum = 1 :=
  ⟨rfl, rfl⟩

/-- C6 (amended): on a successful response, each item of the FIRST result
group is transformed into one `Landmark` (later groups are ignored), and
zero result groups yield the empty landmark list with no error. -/
theorem fetchLandmarks_spec :
    ∀ (ll : ℚ × ℚ) (apiKey rawBody : String) (fs : FoursquareV2Response),
    apiKey ≠ "" →
    fetchLandmarksFromFoursquare (.ok ll) apiKey
        (.response 200 rawBody (.ok fs)) =
      .ok (match fs.Response.Groups with
           | [] => []
           | g :: _ => g.Items.map toLandmark) ∧
    (fs.Response.Groups = [] →
      fetchLandmarksFromFoursquare (.ok ll) apiKey
        (.response 200 rawBody (.ok fs)) = .ok []) := by
  intro ll apiKey rawBody fs h
  constructor
  · simp [fetchLandmarksFromFoursquare, h]
  · intro hg
    simp [fetchLandmarksFromFoursquare, h, hg]

/-- Concrete instantiation of `fetchLandmarks_spec` on a zero-group
response. -/
theorem fetchLandmarks_spec_witness :
    fetchLandmarksFromFoursquare (.ok (0, 0)) "k"
      (.response 200 "" (.ok ⟨⟨[]⟩⟩)) = .ok [] := by
  have h := (fetchLandmarks_spec (0, 0) "k" "" ⟨⟨[]⟩⟩ (by decide)).2 rfl
  exact h

theorem decodeCity_encodeCity (c : City) : decodeCity (encodeCity c) = some c := by
  simp [decodeCity, encodeCity, Json.getField, List.lookup, Json.asInt,
    Json.asString, Rat.den_intCast, Rat.num_intCast]

theorem decodeLandmark_encodeLandmark (l : Landmark) :
    decodeLandmark (encodeLandmark l) = some l := by
  simp [decodeLandmark, encodeLandmark, Json.getField, List.lookup,
    Json.asNum, Json.asString]

theorem decodeHourlyForecast_encode (h : HourlyForecast) :
    decodeHourlyForecast (encodeHourlyForecast h) = some h := by
  simp [decodeHourlyForecast, encodeHourlyForecast, Json.getField,
    List.lookup, Json.asNum, Json.asString, Json.asInt, Rat.den_intCast,
    Rat.num_intCast]

theorem decodeListWith_map {α : Type} (dec : Json → Option α) (enc : α → Json)
    (h : ∀ x, dec (enc x) = some x) (l : List α) :
    decodeListWith dec (l.map enc) = some l := by
  induction l with
  | nil => rfl
  | cons x xs ih => simp [decodeListWith, h, ih]

theorem decodeWeatherData_encode (w : WeatherData) :
    decodeWeatherData (encodeWeatherData w) = some w := by
  simp [decodeWeatherData, encodeWeatherData, Json.getField, List.lookup,
    Json.asNum, Json.asArr,
    decodeListWith_map decodeHourlyForecast encodeHourlyForecast
      decodeHourlyForecast_encode]

theorem decodeRatesEntries_map (l : List (String × ℚ)) :
    decodeRatesEntries (l.map fun p => (p.1, Json.num p.2)) = some l := by
  induction l with
  | nil => rfl
  | cons p ps ih => simp [decodeRatesEntries, Json.asNum, ih]

theorem decodeRatesData_encode (r : RatesData) :
    decodeRatesData (encodeRatesData r) = some r := by
  simp [decodeRatesData, encodeRatesData, Json.getField, List.lookup,
    Json.asString, Json.asObj, Json.asInt, decodeRatesEntries_map,
    Rat.den_intCast, Rat.num_intCast]

/-- C8: encoding a `City`, `Landmark`, `WeatherData` or `RatesData` to the
wire JSON shape and decoding the result yields the original value in all
fields. -/
theorem json_roundtrip :
    (∀ c : City, decodeCity (encodeCity c) = some c) ∧
    (∀ l : Landmark, decodeLandmark (encodeLandmark l) = some l) ∧
    (∀ w : WeatherData, decodeWeatherData (encodeWeatherData w) = some w) ∧
    (∀ r : RatesData, decodeRatesData (encodeRatesData r) = some r) :=
  ⟨decodeCity_encodeCity, decodeLandmark_encodeLandmark,
    decodeWeatherData_encode, decodeRatesData_encode⟩
